import Mathlib

/-!
Shallow embedding of the ESP32 LoRa ultra-low-power telemetry node and its
gateway relay (src/transmissor/transmissor.ino).

The node file defines RTC-persistent state (lastTemp, lastUmi, lastPoeira,
skipSendCount, totalUptimeMicros, lastSendTimestamp), a wake cycle in
`setup()` (measure, change detection against thresholds, skip or send with a
forced send every 60 silent cycles, optimistic commit before LoRa init), and
`dormir()` which folds the cycle's active time plus the sleep duration into
the uint64 accumulated-time counter before deep sleep.

Sensor values (C floats) are modeled as rationals; the comparisons and
constants involved (0.5, 2.0, 5.0, -1000, sensor simulation ranges) are all
exactly representable in binary floating point at these magnitudes, so the
rational model is faithful for the properties considered here.
uint64_t arithmetic is modeled as natural numbers reduced modulo 2^64.
-/

namespace Node

/-- TEMPO_SLEEP: configured deep-sleep duration in seconds (the value in
src/transmissor/transmissor.ino is 1). -/
def TEMPO_SLEEP : ℕ := 1

/-- The sleep duration in microseconds, `TEMPO_SLEEP * 1000000ULL` as passed
to `esp_sleep_enable_timer_wakeup` and added in `dormir`. -/
def sleepMicros : ℕ := TEMPO_SLEEP * 1000000

/-- LIMITE_TEMP: change threshold for temperature. -/
def LIMITE_TEMP : ℚ := 0.5

/-- LIMITE_UMI: change threshold for humidity. -/
def LIMITE_UMI : ℚ := 2.0

/-- LIMITE_POEIRA: change threshold for dust. -/
def LIMITE_POEIRA : ℚ := 5.0

/-- The modulus of uint64_t arithmetic. -/
def U64 : ℕ := 2 ^ 64

/-- One sampled reading: temperatura, umidade, poeira (floats modeled as
rationals; the sensor_id string is a compile-time constant and plays no role
in any state transition). -/
structure Reading where
  temperatura : ℚ
  umidade : ℚ
  poeira : ℚ
deriving DecidableEq

/-- The RTC_DATA_ATTR variables: the persistent state surviving deep sleep. -/
structure RTCState where
  lastTemp : ℚ
  lastUmi : ℚ
  lastPoeira : ℚ
  skipSendCount : ℤ
  totalUptimeMicros : ℕ
  lastSendTimestamp : ℕ
deriving DecidableEq

/-- Cold-start initial values of the RTC memory: the -1000 sentinels for the
last-sent reading, and zero counters. -/
def initialState : RTCState :=
  { lastTemp := -1000
    lastUmi := -1000
    lastPoeira := -1000
    skipSendCount := 0
    totalUptimeMicros := 0
    lastSendTimestamp := 0 }

/-- `dormir(startMicros)`: adds this cycle's active time plus the sleep
duration to `totalUptimeMicros` (uint64 wrap-around) and enters deep sleep.
`activeMicros` stands for `now() - startMicros`. -/
def dormir (activeMicros : ℕ) (st : RTCState) : RTCState :=
  { st with
    totalUptimeMicros :=
      (st.totalUptimeMicros + activeMicros + sleepMicros) % U64 }

/-- The C `abs` function on the rational model of float. -/
def ratAbs (q : ℚ) : ℚ := if q < 0 then -q else q

/-- `mudouTemp`: `abs(temperatura - lastTemp) >= LIMITE_TEMP`. -/
def mudouTemp (r : Reading) (st : RTCState) : Bool :=
  decide (LIMITE_TEMP ≤ ratAbs (r.temperatura - st.lastTemp))

/-- `mudouUmi`: `abs(umidade - lastUmi) >= LIMITE_UMI`. -/
def mudouUmi (r : Reading) (st : RTCState) : Bool :=
  decide (LIMITE_UMI ≤ ratAbs (r.umidade - st.lastUmi))

/-- `mudouPoeira`: `abs(poeira - lastPoeira) >= LIMITE_POEIRA`. -/
def mudouPoeira (r : Reading) (st : RTCState) : Bool :=
  decide (LIMITE_POEIRA ≤ ratAbs (r.poeira - st.lastPoeira))

/-- `mudouAlgo`: the overall change decision, OR of the three fields. -/
def mudouAlgo (r : Reading) (st : RTCState) : Bool :=
  mudouTemp r st || mudouUmi r st || mudouPoeira r st

/-- What a wake cycle did: silent skip, send attempt aborted by LoRa.begin
failure, or a completed transmission. -/
inductive Outcome
  | skipped
  | loraFail
  | sentOk
deriving DecidableEq

/-- Whether the cycle took the SEND branch of the state machine (a LoRa init
failure still belongs to the SEND branch: the skip test already failed). -/
def Outcome.isSend : Outcome → Bool
  | Outcome.skipped => false
  | Outcome.loraFail => true
  | Outcome.sentOk => true

/-- Result of one wake cycle: the persistent state at the next wake, the
list of packets put on the radio during the cycle (the payload is the
reading being serialized), and which branch ran. -/
structure CycleResult where
  st : RTCState
  sent : List Reading
  outcome : Outcome
deriving DecidableEq

/-- The optimistic commit done at the start of the SEND branch, before any
transport call: `skipSendCount = 0; lastTemp = temperatura;
lastUmi = umidade; lastPoeira = poeira;`. -/
def commitState (r : Reading) (st0 : RTCState) : RTCState :=
  { st0 with
    skipSendCount := 0
    lastTemp := r.temperatura
    lastUmi := r.umidade
    lastPoeira := r.poeira }

/-- One wake cycle: the body of `setup()` in the node sketch.
With no change and `skipSendCount + 1 < 60` the cycle only increments the
counter and sleeps.  Otherwise (a change, or the forced send at 60) it
performs the optimistic commit `commitState` BEFORE attempting LoRa init;
if `LoRa.begin` fails it sleeps right there, and otherwise it transmits and
sets `lastSendTimestamp = totalUptimeMicros`.  In the forced-send path the
code increments `skipSendCount` to 60 and immediately resets it to 0; the
intermediate 60 is only printed, so the net assignment to 0 is what the
state transition keeps. -/
def cycle (r : Reading) (loraOk : Bool) (activeMicros : ℕ)
    (st0 : RTCState) : CycleResult :=
  if mudouAlgo r st0 = false ∧ st0.skipSendCount + 1 < 60 then
    { st := dormir activeMicros { st0 with skipSendCount := st0.skipSendCount + 1 }
      sent := []
      outcome := Outcome.skipped }
  else if loraOk = false then
    { st := dormir activeMicros (commitState r st0)
      sent := []
      outcome := Outcome.loraFail }
  else
    { st := dormir activeMicros
        { commitState r st0 with
          lastSendTimestamp := (commitState r st0).totalUptimeMicros }
      sent := [r]
      outcome := Outcome.sentOk }

/-- The environment of one wake cycle: the fresh reading, whether
`LoRa.begin` succeeds this cycle, and the measured active time. -/
structure CycleInput where
  reading : Reading
  loraOk : Bool
  activeMicros : ℕ

/-- The state transition of one cycle. -/
def step (i : CycleInput) (st : RTCState) : RTCState :=
  (cycle i.reading i.loraOk i.activeMicros st).st

/-- Running a sequence of wake cycles. -/
def run : List CycleInput → RTCState → RTCState
  | [], st => st
  | i :: rest, st => run rest (step i st)

/-- uint64 subtraction with wrap-around. -/
def u64sub (a b : ℕ) : ℕ := (U64 + a - b) % U64

/-- What the node prints at the top of `setup()` about the previous send. -/
inductive Report
  | firstBoot
  | elapsed (diffMicros : ℕ)
deriving DecidableEq

/-- The `lastSendTimestamp == 0` test at wake: 0 is treated as the
"no previous send" sentinel, otherwise the elapsed time
`totalUptimeMicros - lastSendTimestamp` is reported. -/
def startupReport (st : RTCState) : Report :=
  if st.lastSendTimestamp = 0 then Report.firstBoot
  else Report.elapsed (u64sub st.totalUptimeMicros st.lastSendTimestamp)

/-- Valid simulated sensor ranges: temperatura = 28 ± 5, umidade constrained
to [0,100], poeira in [10,50]. -/
def validReading (r : Reading) : Prop :=
  23 ≤ r.temperatura ∧ r.temperatura ≤ 33 ∧
  0 ≤ r.umidade ∧ r.umidade ≤ 100 ∧
  10 ≤ r.poeira ∧ r.poeira ≤ 50

/-- The duration one cycle contributes to `totalUptimeMicros`: measured
active time plus the configured sleep time. -/
def cycleCost (i : CycleInput) : ℕ := i.activeMicros + sleepMicros

/-- The change-detection contract in the words of the specification: a field
is changed exactly when |current - baseline| is at least the field's
threshold (0.5 / 2.0 / 5.0), and the overall decision is the OR of the
per-field results.  Stated with the mathematical absolute value, to be
compared against the code's `mudouAlgo`. -/
def changedSpec (r : Reading) (st : RTCState) : Prop :=
  (0.5 : ℚ) ≤ |r.temperatura - st.lastTemp| ∨
  (2.0 : ℚ) ≤ |r.umidade - st.lastUmi| ∨
  (5.0 : ℚ) ≤ |r.poeira - st.lastPoeira|

/-- A nominal in-range reading (the simulation's base values). -/
def nominalReading : Reading := { temperatura := 28, umidade := 45, poeira := 30 }

/-- A persistent state whose baseline equals the nominal reading (so the
nominal reading registers as unchanged against it), with a given silent-cycle
count. -/
def silentState (k : ℤ) : RTCState :=
  { lastTemp := 28
    lastUmi := 45
    lastPoeira := 30
    skipSendCount := k
    totalUptimeMicros := 0
    lastSendTimestamp := 0 }

/-- The spec's boundary example: baseline temperature 28.00 and a new
reading at 28.50, exactly the 0.5 threshold away. -/
def boundaryReading : Reading := { temperatura := 28.5, umidade := 45, poeira := 30 }

end Node

namespace Gateway

/-- Whitespace test used by Arduino `String.trim` (isspace). -/
def isSpaceChar (c : Char) : Bool :=
  c = ' ' || c = '\t' || c = '\n' || c = '\x0b' || c = '\x0c' || c = '\r'

/-- Arduino `String.trim()`: drop whitespace from both ends.  Arduino
Strings are modeled as lists of characters. -/
def trimChars (s : List Char) : List Char :=
  ((s.dropWhile isSpaceChar).reverse.dropWhile isSpaceChar).reverse

/-- `dados_recebidos.endsWith("\x7d")`. -/
def endsWithBrace (s : List Char) : Bool :=
  match s.getLast? with
  | some c => c = '\x7d'
  | none => false

/-- Arduino `String(x, 1)`: fixed-point rendering with one fractional digit.
The snr float is represented by its value in tenths (exact for the values
this development evaluates); e.g. 75 renders as "7.5". -/
def fmt1 (tenths : ℤ) : List Char :=
  ((if tenths < 0 then "-" else "") ++
    toString (tenths.natAbs / 10) ++ "." ++ toString (tenths.natAbs % 10)).toList

/-- The metadata text appended by the gateway:
`,"rssi":<rssi>,"snr":<snr,1dp>` followed by the re-closing brace. -/
def metaSuffix (rssi : ℤ) (snrTenths : ℤ) : List Char :=
  ",\"rssi\":".toList ++ (toString rssi).toList ++
    ",\"snr\":".toList ++ fmt1 snrTenths ++ ['\x7d']

/-- `receberPacote`: drains the packet into `payload`, reads rssi/snr, trims,
removes the final brace when present, appends the metadata and the closing
brace, and prints the `DATA:` framed line on Serial.  The returned list is
the bytes written to the host stream for this packet; `Serial.println`'s
line terminator is modeled as a single newline. -/
def receberPacote (payload : List Char) (rssi : ℤ) (snrTenths : ℤ) :
    List Char :=
  "DATA:".toList ++
    ((if endsWithBrace (trimChars payload) then (trimChars payload).dropLast
      else trimChars payload) ++ metaSuffix rssi snrTenths) ++ ['\n']

end Gateway

namespace Node

/-- Unfolding of the silent-skip branch of a cycle. -/
theorem cycle_skip (r : Reading) (ok : Bool) (a : ℕ) (st : RTCState)
    (h1 : mudouAlgo r st = false) (h2 : st.skipSendCount + 1 < 60) :
    cycle r ok a st =
      { st := dormir a { st with skipSendCount := st.skipSendCount + 1 }
        sent := []
        outcome := Outcome.skipped } := by
  unfold cycle
  rw [if_pos ⟨h1, h2⟩]

/-- Unfolding of the SEND branch when `LoRa.begin` fails. -/
theorem cycle_fail (r : Reading) (a : ℕ) (st : RTCState)
    (hc : ¬(mudouAlgo r st = false ∧ st.skipSendCount + 1 < 60)) :
    cycle r false a st =
      { st := dormir a (commitState r st)
        sent := []
        outcome := Outcome.loraFail } := by
  unfold cycle
  rw [if_neg hc, if_pos rfl]

/-- Unfolding of the SEND branch when `LoRa.begin` succeeds. -/
theorem cycle_sendOk (r : Reading) (a : ℕ) (st : RTCState)
    (hc : ¬(mudouAlgo r st = false ∧ st.skipSendCount + 1 < 60)) :
    cycle r true a st =
      { st := dormir a
          { commitState r st with
            lastSendTimestamp := (commitState r st).totalUptimeMicros }
        sent := [r]
        outcome := Outcome.sentOk } := by
  unfold cycle
  rw [if_neg hc, if_neg (by simp)]

/-- C1: forced-send watchdog.  A cycle that begins with skipSendCount = 59
and an unchanged reading takes the SEND branch (transmitting its packet when
the transport initializes) and resets skipSendCount to 0, whereas a cycle
that begins with skipSendCount = 58 and an unchanged reading sends nothing
and only increments the counter to 59 before suspending. -/
theorem C1_forced_send_watchdog :
    (∀ (r : Reading) (ok : Bool) (a : ℕ) (st : RTCState),
      st.skipSendCount = 59 → mudouAlgo r st = false →
        (cycle r ok a st).outcome.isSend = true ∧
        (cycle r ok a st).st.skipSendCount = 0 ∧
        (cycle r true a st).sent = [r]) ∧
    (∀ (r : Reading) (ok : Bool) (a : ℕ) (st : RTCState),
      st.skipSendCount = 58 → mudouAlgo r st = false →
        (cycle r ok a st).outcome = Outcome.skipped ∧
        (cycle r ok a st).sent = [] ∧
        (cycle r ok a st).st.skipSendCount = 59) := by
  constructor
  · intro r ok a st h59 _
    have hc : ¬(mudouAlgo r st = false ∧ st.skipSendCount + 1 < 60) := by
      rintro ⟨-, hlt⟩
      omega
    refine ⟨?_, ?_, ?_⟩
    · cases ok
      · rw [cycle_fail r a st hc]
        rfl
      · rw [cycle_sendOk r a st hc]
        rfl
    · cases ok
      · rw [cycle_fail r a st hc]
        rfl
      · rw [cycle_sendOk r a st hc]
        rfl
    · rw [cycle_sendOk r a st hc]
  · intro r ok a st h58 hun
    have h2 : st.skipSendCount + 1 < 60 := by omega
    rw [cycle_skip r ok a st hun h2]
    refine ⟨rfl, rfl, ?_⟩
    show st.skipSendCount + 1 = 59
    omega

/-- Witness for C1 at a concrete unchanged reading and silent states with 59
and 58 prior silent cycles. -/
theorem C1_forced_send_watchdog_witness :
    ((cycle nominalReading false 0 (silentState 59)).outcome.isSend = true ∧
     (cycle nominalReading false 0 (silentState 59)).st.skipSendCount = 0 ∧
     (cycle nominalReading true 0 (silentState 59)).sent = [nominalReading]) ∧
    ((cycle nominalReading true 0 (silentState 58)).outcome = Outcome.skipped ∧
     (cycle nominalReading true 0 (silentState 58)).sent = [] ∧
     (cycle nominalReading true 0 (silentState 58)).st.skipSendCount = 59) := by
  constructor
  · exact C1_forced_send_watchdog.1 nominalReading false 0 (silentState 59) rfl
      (by norm_num [mudouAlgo, mudouTemp, mudouUmi, mudouPoeira, ratAbs,
            LIMITE_TEMP, LIMITE_UMI, LIMITE_POEIRA, nominalReading, silentState])
  · exact C1_forced_send_watchdog.2 nominalReading true 0 (silentState 58) rfl
      (by norm_num [mudouAlgo, mudouTemp, mudouUmi, mudouPoeira, ratAbs,
            LIMITE_TEMP, LIMITE_UMI, LIMITE_POEIRA, nominalReading, silentState])

/-- C2: optimistic commit on transport failure.  A cycle that reaches the
SEND branch with a failing `LoRa.begin` transmits nothing, yet has already
stored the current reading in lastTemp/lastUmi/lastPoeira and reset
skipSendCount to 0, and it still reaches `dormir` (its accumulated-time
update runs) instead of aborting or rolling back. -/
theorem C2_optimistic_commit_on_radio_fault (r : Reading) (a : ℕ)
    (st : RTCState)
    (hreach : (cycle r false a st).outcome ≠ Outcome.skipped) :
    (cycle r false a st).sent = [] ∧
    (cycle r false a st).outcome = Outcome.loraFail ∧
    (cycle r false a st).st.lastTemp = r.temperatura ∧
    (cycle r false a st).st.lastUmi = r.umidade ∧
    (cycle r false a st).st.lastPoeira = r.poeira ∧
    (cycle r false a st).st.skipSendCount = 0 ∧
    (cycle r false a st).st.totalUptimeMicros =
      (st.totalUptimeMicros + a + sleepMicros) % U64 := by
  by_cases hc : mudouAlgo r st = false ∧ st.skipSendCount + 1 < 60
  · rw [cycle_skip r false a st hc.1 hc.2] at hreach
    exact absurd rfl hreach
  · rw [cycle_fail r a st hc]
    exact ⟨rfl, rfl, rfl, rfl, rfl, rfl, rfl⟩

/-- Witness for C2: a changed reading against the cold-start baseline with a
failing radio. -/
theorem C2_optimistic_commit_witness :
    (cycle nominalReading false 0 initialState).sent = [] ∧
    (cycle nominalReading false 0 initialState).outcome = Outcome.loraFail ∧
    (cycle nominalReading false 0 initialState).st.lastTemp =
      nominalReading.temperatura ∧
    (cycle nominalReading false 0 initialState).st.lastUmi =
      nominalReading.umidade ∧
    (cycle nominalReading false 0 initialState).st.lastPoeira =
      nominalReading.poeira ∧
    (cycle nominalReading false 0 initialState).st.skipSendCount = 0 ∧
    (cycle nominalReading false 0 initialState).st.totalUptimeMicros =
      (initialState.totalUptimeMicros + 0 + sleepMicros) % U64 := by
  refine C2_optimistic_commit_on_radio_fault nominalReading 0 initialState ?_
  rw [cycle_fail nominalReading 0 initialState ?_]
  · intro h
    exact Outcome.noConfusion h
  · rintro ⟨hfalse, -⟩
    have : mudouAlgo nominalReading initialState = true := by
      norm_num [mudouAlgo, mudouTemp, mudouUmi, mudouPoeira, ratAbs,
        LIMITE_TEMP, LIMITE_UMI, LIMITE_POEIRA, nominalReading, initialState]
    rw [this] at hfalse
    exact Bool.noConfusion hfalse

end Node

namespace Node

/-- One step keeps the skip counter within [0, 59]. -/
theorem step_skip_bound (i : CycleInput) (st : RTCState)
    (h0 : 0 ≤ st.skipSendCount) (h59 : st.skipSendCount ≤ 59) :
    0 ≤ (step i st).skipSendCount ∧ (step i st).skipSendCount ≤ 59 := by
  unfold step
  by_cases hc : mudouAlgo i.reading st = false ∧ st.skipSendCount + 1 < 60
  · rw [cycle_skip i.reading i.loraOk i.activeMicros st hc.1 hc.2]
    constructor
    · show (0:ℤ) ≤ st.skipSendCount + 1
      omega
    · show st.skipSendCount + 1 ≤ (59:ℤ)
      have := hc.2
      omega
  · cases hok : i.loraOk
    · rw [cycle_fail i.reading i.activeMicros st hc]
      constructor
      · show (0:ℤ) ≤ 0
        omega
      · show (0:ℤ) ≤ 59
        omega
    · rw [cycle_sendOk i.reading i.activeMicros st hc]
      constructor
      · show (0:ℤ) ≤ 0
        omega
      · show (0:ℤ) ≤ 59
        omega

/-- Any run from a state with the skip counter in [0, 59] stays in [0, 59]. -/
theorem run_skip_bound : ∀ (inputs : List CycleInput) (st : RTCState),
    0 ≤ st.skipSendCount → st.skipSendCount ≤ 59 →
    0 ≤ (run inputs st).skipSendCount ∧ (run inputs st).skipSendCount ≤ 59
  | [], _, h0, h59 => ⟨h0, h59⟩
  | i :: rest, st, h0, h59 => by
    have h := step_skip_bound i st h0 h59
    exact run_skip_bound rest (step i st) h.1 h.2

/-- From a state with a nonnegative skip counter, the cycle leaves the
counter at 0 exactly when it took the SEND branch. -/
theorem cycle_skip_zero_iff (r : Reading) (ok : Bool) (a : ℕ) (st : RTCState)
    (h0 : 0 ≤ st.skipSendCount) :
    ((cycle r ok a st).st.skipSendCount = 0 ↔
     (cycle r ok a st).outcome.isSend = true) := by
  by_cases hc : mudouAlgo r st = false ∧ st.skipSendCount + 1 < 60
  · rw [cycle_skip r ok a st hc.1 hc.2]
    constructor
    · intro h
      have hcontra : st.skipSendCount + 1 = 0 := h
      omega
    · intro h
      simp [Outcome.isSend] at h
  · cases ok
    · rw [cycle_fail r a st hc]
      exact ⟨fun _ => rfl, fun _ => rfl⟩
    · rw [cycle_sendOk r a st hc]
      exact ⟨fun _ => rfl, fun _ => rfl⟩

/-- C3: skip-count invariant.  Every state reachable by running any sequence
of cycles from the cold-start state has skipSendCount within [0, 60], and
from any such reachable state the next cycle resets the counter to 0 exactly
when it takes a send transition (change-triggered or forced), never on a
skip transition. -/
theorem C3_skip_count_invariant :
    ∀ inputs : List CycleInput,
      (0 ≤ (run inputs initialState).skipSendCount ∧
       (run inputs initialState).skipSendCount ≤ 60) ∧
      ∀ i : CycleInput,
        ((cycle i.reading i.loraOk i.activeMicros
            (run inputs initialState)).st.skipSendCount = 0 ↔
         (cycle i.reading i.loraOk i.activeMicros
            (run inputs initialState)).outcome.isSend = true) := by
  intro inputs
  have hb := run_skip_bound inputs initialState (by decide) (by decide)
  exact ⟨⟨hb.1, by omega⟩,
    fun i => cycle_skip_zero_iff i.reading i.loraOk i.activeMicros _ hb.1⟩

/-- Every branch of a cycle adds exactly (active time + sleep duration) to
the accumulated uint64 counter. -/
theorem cycle_tot (r : Reading) (ok : Bool) (a : ℕ) (st : RTCState) :
    (cycle r ok a st).st.totalUptimeMicros =
      (st.totalUptimeMicros + a + sleepMicros) % U64 := by
  by_cases hc : mudouAlgo r st = false ∧ st.skipSendCount + 1 < 60
  · rw [cycle_skip r ok a st hc.1 hc.2]
    rfl
  · cases ok
    · rw [cycle_fail r a st hc]
      rfl
    · rw [cycle_sendOk r a st hc]
      rfl

/-- Closed form of the accumulated time after a run, modulo 2^64. -/
theorem run_tot : ∀ (inputs : List CycleInput) (st : RTCState),
    st.totalUptimeMicros < U64 →
    (run inputs st).totalUptimeMicros =
      (st.totalUptimeMicros + (inputs.map cycleCost).sum) % U64
  | [], st, h => by
    simp [run, Nat.mod_eq_of_lt h]
  | i :: rest, st, _ => by
    have hstep : (step i st).totalUptimeMicros =
        (st.totalUptimeMicros + cycleCost i) % U64 := by
      show (cycle i.reading i.loraOk i.activeMicros st).st.totalUptimeMicros = _
      rw [cycle_tot, cycleCost, Nat.add_assoc]
    have hlt : (step i st).totalUptimeMicros < U64 := by
      rw [hstep]
      exact Nat.mod_lt _ (by norm_num [U64])
    calc (run (i :: rest) st).totalUptimeMicros
        = (run rest (step i st)).totalUptimeMicros := rfl
      _ = ((step i st).totalUptimeMicros + (rest.map cycleCost).sum) % U64 :=
          run_tot rest (step i st) hlt
      _ = ((st.totalUptimeMicros + cycleCost i) % U64 +
            (rest.map cycleCost).sum) % U64 := by rw [hstep]
      _ = (st.totalUptimeMicros + cycleCost i +
            (rest.map cycleCost).sum) % U64 := Nat.mod_add_mod ..
      _ = (st.totalUptimeMicros + ((i :: rest).map cycleCost).sum) % U64 := by
          rw [List.map_cons, List.sum_cons, Nat.add_assoc]

/-- C4: accumulated-time accounting.  Each cycle adds exactly (its active
time + the sleep duration) to totalUptimeMicros regardless of the branch
taken; after any run from cold start whose total duration fits in uint64 the
counter equals the sum of the per-cycle durations; and along such a run the
counter never decreases. -/
theorem C4_accumulated_time_accounting :
    (∀ (r : Reading) (ok : Bool) (a : ℕ) (st : RTCState),
      (cycle r ok a st).st.totalUptimeMicros =
        (st.totalUptimeMicros + a + sleepMicros) % U64) ∧
    (∀ inputs : List CycleInput,
      (inputs.map cycleCost).sum < U64 →
      (run inputs initialState).totalUptimeMicros =
        (inputs.map cycleCost).sum) ∧
    (∀ pre post : List CycleInput,
      ((pre ++ post).map cycleCost).sum < U64 →
      (run pre initialState).totalUptimeMicros ≤
        (run (pre ++ post) initialState).totalUptimeMicros) := by
  have h0 : initialState.totalUptimeMicros < U64 := by norm_num [initialState, U64]
  have hz : initialState.totalUptimeMicros = 0 := rfl
  refine ⟨cycle_tot, ?_, ?_⟩
  · intro inputs h
    rw [run_tot inputs initialState h0, hz, Nat.zero_add, Nat.mod_eq_of_lt h]
  · intro pre post h
    have hsum : ((pre ++ post).map cycleCost).sum =
        (pre.map cycleCost).sum + (post.map cycleCost).sum := by
      rw [List.map_append, List.sum_append]
    have hpre : (pre.map cycleCost).sum < U64 := by omega
    rw [run_tot pre initialState h0, run_tot (pre ++ post) initialState h0, hz,
      Nat.zero_add, Nat.zero_add, Nat.mod_eq_of_lt hpre, Nat.mod_eq_of_lt h,
      hsum]
    exact Nat.le_add_right _ _

/-- Witness for C4 on a concrete two-cycle run. -/
theorem C4_accumulated_time_witness :
    (cycle nominalReading true 5 initialState).st.totalUptimeMicros =
      (initialState.totalUptimeMicros + 5 + sleepMicros) % U64 ∧
    (run [⟨nominalReading, true, 1000⟩] initialState).totalUptimeMicros =
      (([⟨nominalReading, true, 1000⟩] : List CycleInput).map cycleCost).sum ∧
    (run [⟨nominalReading, true, 1000⟩] initialState).totalUptimeMicros ≤
      (run ([⟨nominalReading, true, 1000⟩] ++ [⟨nominalReading, false, 2000⟩])
        initialState).totalUptimeMicros := by
  refine ⟨C4_accumulated_time_accounting.1 nominalReading true 5 initialState,
    C4_accumulated_time_accounting.2.1 _ ?_,
    C4_accumulated_time_accounting.2.2 _ _ ?_⟩
  · norm_num [cycleCost, sleepMicros, TEMPO_SLEEP, U64]
  · norm_num [cycleCost, sleepMicros, TEMPO_SLEEP, U64]

/-- C5: on a successful send, lastSendTimestamp receives the value that
totalUptimeMicros held before this cycle's own duration is folded in by
`dormir`. -/
theorem C5_last_send_time_before_persist (r : Reading) (ok : Bool) (a : ℕ)
    (st : RTCState)
    (hsent : (cycle r ok a st).outcome = Outcome.sentOk) :
    (cycle r ok a st).st.lastSendTimestamp = st.totalUptimeMicros ∧
    (cycle r ok a st).st.totalUptimeMicros =
      (st.totalUptimeMicros + a + sleepMicros) % U64 := by
  by_cases hc : mudouAlgo r st = false ∧ st.skipSendCount + 1 < 60
  · rw [cycle_skip r ok a st hc.1 hc.2] at hsent
    simp at hsent
  · cases ok
    · rw [cycle_fail r a st hc] at hsent
      simp at hsent
    · rw [cycle_sendOk r a st hc]
      exact ⟨rfl, rfl⟩

/-- The nominal reading registers as changed against the cold-start
sentinels. -/
theorem mudouAlgo_nominal_initial : mudouAlgo nominalReading initialState = true := by
  norm_num [mudouAlgo, mudouTemp, mudouUmi, mudouPoeira, ratAbs,
    LIMITE_TEMP, LIMITE_UMI, LIMITE_POEIRA, nominalReading, initialState]

/-- The first cycle on the nominal reading cannot take the skip branch. -/
theorem not_skip_nominal_initial :
    ¬(mudouAlgo nominalReading initialState = false ∧
      initialState.skipSendCount + 1 < 60) := by
  rintro ⟨hf, -⟩
  rw [mudouAlgo_nominal_initial] at hf
  exact Bool.noConfusion hf

/-- Witness for C5 on the first successful send. -/
theorem C5_last_send_time_witness :
    (cycle nominalReading true 0 initialState).st.lastSendTimestamp =
      initialState.totalUptimeMicros ∧
    (cycle nominalReading true 0 initialState).st.totalUptimeMicros =
      (initialState.totalUptimeMicros + 0 + sleepMicros) % U64 := by
  refine C5_last_send_time_before_persist nominalReading true 0 initialState ?_
  rw [cycle_sendOk nominalReading 0 initialState not_skip_nominal_initial]

end Node

namespace Node

/-- `ratAbs` agrees with the mathematical absolute value. -/
theorem ratAbs_eq_abs (q : ℚ) : ratAbs q = |q| := by
  unfold ratAbs
  rcases lt_or_le q 0 with h | h
  · rw [if_pos h, abs_of_neg h]
  · rw [if_neg (not_lt.mpr h), abs_of_nonneg h]

/-- Any reading in the valid sensor ranges registers as changed against the
cold-start -1000 sentinels (already the temperature field alone does). -/
theorem mudouAlgo_valid_initial (r : Reading) (hv : validReading r) :
    mudouAlgo r initialState = true := by
  have h23 : (23:ℚ) ≤ r.temperatura := hv.1
  have ht : mudouTemp r initialState = true := by
    unfold mudouTemp
    have hlast : initialState.lastTemp = -1000 := rfl
    rw [hlast]
    have hnn : ¬(r.temperatura - (-1000) < 0) := by
      push_neg
      linarith
    unfold ratAbs
    rw [if_neg hnn]
    simp only [decide_eq_true_eq]
    unfold LIMITE_TEMP
    linarith
  simp [mudouAlgo, ht]

/-- A valid reading forbids the skip branch on the very first cycle. -/
theorem first_cycle_not_skip (r : Reading) (hv : validReading r) :
    ¬(mudouAlgo r initialState = false ∧
      initialState.skipSendCount + 1 < 60) := by
  rintro ⟨hf, -⟩
  rw [mudouAlgo_valid_initial r hv] at hf
  exact Bool.noConfusion hf

/-- C6: first-ever cycle always sends.  Every reading within the valid
sensor ranges is classified as changed against the -1000 cold-start
baseline, so the first wake cycle takes the SEND branch. -/
theorem C6_first_cycle_always_sends (r : Reading) (ok : Bool) (a : ℕ)
    (hv : validReading r) :
    mudouAlgo r initialState = true ∧
    (cycle r ok a initialState).outcome.isSend = true := by
  refine ⟨mudouAlgo_valid_initial r hv, ?_⟩
  cases ok
  · rw [cycle_fail r a initialState (first_cycle_not_skip r hv)]
    rfl
  · rw [cycle_sendOk r a initialState (first_cycle_not_skip r hv)]
    rfl

/-- Witness for C6 at the nominal in-range reading. -/
theorem C6_first_cycle_witness :
    mudouAlgo nominalReading initialState = true ∧
    (cycle nominalReading true 0 initialState).outcome.isSend = true := by
  refine C6_first_cycle_always_sends nominalReading true 0 ?_
  norm_num [validReading, nominalReading]

/-- C7: inclusive threshold boundary.  The code's change decision is
exactly the spec's: a field counts as changed when |current - baseline| is
at least the threshold (0.5, 2.0, 5.0), inclusively, and the overall
decision is the OR of the three fields; in particular the boundary reading
at exactly +0.5 temperature from its baseline is classified as changed (by
its temperature field alone). -/
theorem C7_inclusive_threshold_boundary :
    (∀ (r : Reading) (st : RTCState),
      mudouAlgo r st = true ↔ changedSpec r st) ∧
    mudouTemp boundaryReading (silentState 0) = true ∧
    mudouUmi boundaryReading (silentState 0) = false ∧
    mudouPoeira boundaryReading (silentState 0) = false ∧
    mudouAlgo boundaryReading (silentState 0) = true := by
  refine ⟨?_, ?_, ?_, ?_, ?_⟩
  · intro r st
    unfold mudouAlgo mudouTemp mudouUmi mudouPoeira changedSpec
    rw [ratAbs_eq_abs, ratAbs_eq_abs, ratAbs_eq_abs]
    simp only [Bool.or_eq_true, decide_eq_true_eq]
    unfold LIMITE_TEMP LIMITE_UMI LIMITE_POEIRA
    tauto
  · norm_num [mudouTemp, ratAbs, LIMITE_TEMP, boundaryReading, silentState]
  · norm_num [mudouUmi, ratAbs, LIMITE_UMI, boundaryReading, silentState]
  · norm_num [mudouPoeira, ratAbs, LIMITE_POEIRA, boundaryReading, silentState]
  · norm_num [mudouAlgo, mudouTemp, mudouUmi, mudouPoeira, ratAbs,
      LIMITE_TEMP, LIMITE_UMI, LIMITE_POEIRA, boundaryReading, silentState]

/-- C10: sentinel collision on the first send.  The first-ever cycle on a
valid reading does send, and stores into lastSendTimestamp the current
accumulated time 0 — the very value the wake-up report treats as the
"no previous send" sentinel — so the state after the first send still
reports firstBoot instead of an elapsed time. -/
theorem C10_sentinel_collision_on_first_send (r : Reading) (a : ℕ)
    (hv : validReading r) :
    initialState.lastSendTimestamp = 0 ∧
    (cycle r true a initialState).outcome = Outcome.sentOk ∧
    (cycle r true a initialState).sent = [r] ∧
    (cycle r true a initialState).st.lastSendTimestamp = 0 ∧
    startupReport (cycle r true a initialState).st = Report.firstBoot := by
  rw [cycle_sendOk r a initialState (first_cycle_not_skip r hv)]
  exact ⟨rfl, rfl, rfl, rfl, rfl⟩

/-- Witness for C10 at the nominal in-range reading. -/
theorem C10_sentinel_collision_witness :
    initialState.lastSendTimestamp = 0 ∧
    (cycle nominalReading true 0 initialState).outcome = Outcome.sentOk ∧
    (cycle nominalReading true 0 initialState).sent = [nominalReading] ∧
    (cycle nominalReading true 0 initialState).st.lastSendTimestamp = 0 ∧
    startupReport (cycle nominalReading true 0 initialState).st =
      Report.firstBoot := by
  refine C10_sentinel_collision_on_first_send nominalReading 0 ?_
  norm_num [validReading, nominalReading]

end Node

namespace Gateway

/-- A char list ending in the closing brace is its dropLast plus that
brace. -/
theorem endsWithBrace_eq (s : List Char) (h : endsWithBrace s = true) :
    s = s.dropLast ++ ['\x7d'] := by
  rcases s.eq_nil_or_concat with rfl | ⟨l, a, rfl⟩
  · simp [endsWithBrace] at h
  · have ha : a = '\x7d' := by
      unfold endsWithBrace at h
      rw [List.concat_eq_append, List.getLast?_concat] at h
      simpa using h
    subst ha
    rw [List.concat_eq_append, List.dropLast_concat]

/-- C8: gateway augmentation.  For every inbound payload whose trimmed form
ends in the closing brace, the emitted host line is "DATA:" followed by the
trimmed payload with its final brace replaced by the rssi/snr metadata and
a re-closing brace, terminated by a newline. -/
theorem C8_gateway_augmentation (payload : List Char) (rssi snrTenths : ℤ)
    (h : endsWithBrace (trimChars payload) = true) :
    trimChars payload = (trimChars payload).dropLast ++ ['\x7d'] ∧
    receberPacote payload rssi snrTenths =
      "DATA:".toList ++
        ((trimChars payload).dropLast ++ metaSuffix rssi snrTenths) ++
        ['\n'] := by
  refine ⟨endsWithBrace_eq _ h, ?_⟩
  unfold receberPacote
  rw [if_pos h]

/-- Witness for C8 on a concrete well-formed payload with rssi -42 and
snr 7.5. -/
theorem C8_gateway_augmentation_witness :
    trimChars " x\x7d ".toList =
      (trimChars " x\x7d ".toList).dropLast ++ ['\x7d'] ∧
    receberPacote " x\x7d ".toList (-42) 75 =
      "DATA:".toList ++
        ((trimChars " x\x7d ".toList).dropLast ++ metaSuffix (-42) 75) ++
        ['\n'] :=
  C8_gateway_augmentation " x\x7d ".toList (-42) 75 (by decide)

/-- C9 counterexample: the payload "abc" does not end in the closing brace,
yet the gateway still emits a DATA: line for it (with the metadata appended
and a stray closing brace), i.e. the packet is not dropped. -/
theorem C9_malformed_counterexample :
    endsWithBrace (trimChars "abc".toList) = false ∧
    receberPacote "abc".toList (-42) 75 =
      "DATA:abc,\"rssi\":-42,\"snr\":7.5\x7d\n".toList ∧
    (receberPacote "abc".toList (-42) 75).take 5 = "DATA:".toList := by
  refine ⟨by decide, by decide, by decide⟩

/-- C9 amended: on a payload whose trimmed form does not end with the
closing brace, the gateway does not drop the packet: it appends the
metadata and a closing brace to the unmodified trimmed payload and still
emits the framed DATA: line (returning normally, so the relay loop
continues). -/
theorem C9_amended_malformed_forwarded (payload : List Char)
    (rssi snrTenths : ℤ)
    (h : endsWithBrace (trimChars payload) = false) :
    receberPacote payload rssi snrTenths =
      "DATA:".toList ++
        (trimChars payload ++ metaSuffix rssi snrTenths) ++ ['\n'] ∧
    (receberPacote payload rssi snrTenths).take 5 = "DATA:".toList := by
  have hne : receberPacote payload rssi snrTenths =
      "DATA:".toList ++
        (trimChars payload ++ metaSuffix rssi snrTenths) ++ ['\n'] := by
    unfold receberPacote
    rw [if_neg (by simp [h])]
  refine ⟨hne, ?_⟩
  rw [hne, List.append_assoc]
  exact List.take_left' (by decide)

/-- Witness for the amended C9 on the malformed payload "abc". -/
theorem C9_amended_malformed_witness :
    receberPacote "abc".toList (-42) 75 =
      "DATA:".toList ++
        (trimChars "abc".toList ++ metaSuffix (-42) 75) ++ ['\n'] ∧
    (receberPacote "abc".toList (-42) 75).take 5 = "DATA:".toList :=
  C9_amended_malformed_forwarded "abc".toList (-42) 75 (by decide)

end Gateway
